import Mathlib

/-
Shallow embedding of the PANDA coverage plugin (coverage.cpp) and proofs of
its specified properties.

The plugin records each distinct (pid-or-asid, program counter) pair once to
a CSV log.  Machine integers (target_ulong, size_t) are modelled as natural
numbers, reduced modulo 2^64 exactly where the C arithmetic can overflow.
The external collaborators (OSI introspection, execution-state accessors,
stdio) are modelled as inputs to the embedded functions; an execution that
would dereference a null pointer in C (undefined behaviour) is modelled as
the result `none`.
-/

/-- Width of `size_t` and `target_ulong`: 64-bit words. -/
def wordSize : Nat := 2 ^ 64

/-- `struct RecordID`: an execution-context id (process id or address-space
id) paired with a program counter. -/
structure RecordID where
  pid_or_asid : Nat
  pc : Nat
deriving DecidableEq, Repr

/-- `std::hash<RecordID>::operator()`: `h1 ^ (h2 << 1)` where `h1`, `h2` are
`std::hash<target_ulong>` of the two fields (the identity on unsigned
integers in libstdc++), computed in `size_t` arithmetic. -/
def hashRecordID (s : RecordID) : Nat :=
  let h1 := s.pid_or_asid % wordSize
  let h2 := s.pc % wordSize
  h1 ^^^ ((h2 <<< 1) % wordSize)

/-- `operator==(const RecordID &lhs, const RecordID &rhs)`: field-wise
equality of the two fields. -/
def eqRecordID (lhs rhs : RecordID) : Bool :=
  (lhs.pid_or_asid == rhs.pid_or_asid) && (lhs.pc == rhs.pc)

theorem eqRecordID_iff (lhs rhs : RecordID) : eqRecordID lhs rhs = true ↔ lhs = rhs := by
  cases lhs
  cases rhs
  simp [eqRecordID]

theorem any_eqRecordID (l : List RecordID) (id : RecordID) :
    (l.any fun x => eqRecordID x id) = true ↔ id ∈ l := by
  simp only [List.any_eq_true, eqRecordID_iff]
  constructor
  · rintro ⟨x, hx, rfl⟩
    exact hx
  · intro h
    exact ⟨id, h, rfl⟩

/-- XOR distributes over doubling followed by truncation to 64 bits. -/
theorem xor_double_mod (x y : Nat) :
    ((2 * x) % wordSize) ^^^ ((2 * y) % wordSize) = (2 * (x ^^^ y)) % wordSize := by
  apply Nat.eq_of_testBit_eq
  intro i
  have h2 : ∀ z : Nat, 2 * z = z <<< 1 := by
    intro z
    simp [Nat.shiftLeft_eq, Nat.mul_comm]
  simp only [wordSize, h2, Nat.testBit_xor, Nat.testBit_mod_two_pow, Nat.testBit_shiftLeft]
  cases Nat.decLt i 64 with
  | isTrue h =>
    cases Nat.decLe 1 i with
    | isTrue h1 =>
      simp [h, h1]
    | isFalse h1 =>
      simp [h, h1]
  | isFalse h =>
    simp [h]

theorem xor_lt_wordSize {x y : Nat} (hx : x < wordSize) (hy : y < wordSize) :
    x ^^^ y < wordSize := Nat.xor_lt_two_pow hx hy

/-- Swapping the two fields of a key changes the hash whenever the fields
differ (within the 64-bit value range). -/
theorem hash_swap_ne {A B : Nat} (hA : A < wordSize) (hB : B < wordSize) (hne : A ≠ B) :
    hashRecordID ⟨A, B⟩ ≠ hashRecordID ⟨B, A⟩ := by
  intro heq
  simp only [hashRecordID, Nat.mod_eq_of_lt hA, Nat.mod_eq_of_lt hB] at heq
  have hshift : ∀ z : Nat, z <<< 1 = 2 * z := by
    intro z
    simp [Nat.shiftLeft_eq, Nat.mul_comm]
  rw [hshift, hshift] at heq
  -- cancel to obtain (A xor B) = (2 * (A xor B)) % 2^64
  have xlc : ∀ a b c : Nat, a ^^^ (b ^^^ c) = b ^^^ (a ^^^ c) := by
    intro a b c
    rw [← Nat.xor_assoc, Nat.xor_comm a b, Nat.xor_assoc]
  have xcl : ∀ a b : Nat, a ^^^ (a ^^^ b) = b := by
    intro a b
    rw [← Nat.xor_assoc, Nat.xor_self, Nat.zero_xor]
  have hcancel : A ^^^ B = ((2 * A) % wordSize) ^^^ ((2 * B) % wordSize) := by
    have h' := congrArg (fun z => z ^^^ (B ^^^ ((2 * B) % wordSize))) heq
    simpa [Nat.xor_assoc, Nat.xor_comm, xlc, xcl, Nat.xor_self, Nat.xor_zero,
      Nat.zero_xor] using h'
  rw [xor_double_mod] at hcancel
  set D := A ^^^ B with hD
  have hDlt : D < wordSize := xor_lt_wordSize hA hB
  have hDne : D ≠ 0 := by
    intro h0
    exact hne (Nat.xor_eq_zero.mp h0)
  rcases Nat.lt_or_ge (2 * D) wordSize with hlt | hge
  · rw [Nat.mod_eq_of_lt hlt] at hcancel
    omega
  · have : (2 * D) % wordSize = 2 * D - wordSize := by
      rw [Nat.mod_eq_sub_mod hge, Nat.mod_eq_of_lt]
      omega
    rw [this] at hcancel
    omega

/-- Claim C6: the Identity Key is order-sensitive: for A ≠ B (64-bit values),
the keys (A, B) and (B, A) compare unequal under `operator==`, and their
hashes `h1 ^ (h2 << 1)` differ. -/
theorem recordID_order_sensitive (A B : Nat) (hA : A < wordSize) (hB : B < wordSize)
    (hne : A ≠ B) :
    eqRecordID ⟨A, B⟩ ⟨B, A⟩ = false ∧ hashRecordID ⟨A, B⟩ ≠ hashRecordID ⟨B, A⟩ := by
  constructor
  · simp [eqRecordID, hne]
  · exact hash_swap_ne hA hB hne

/-- Witness for C6 at A = 3, B = 5. -/
theorem recordID_order_sensitive_witness :
    eqRecordID ⟨3, 5⟩ ⟨5, 3⟩ = false ∧ hashRecordID ⟨3, 5⟩ ≠ hashRecordID ⟨5, 3⟩ :=
  recordID_order_sensitive 3 5 (by norm_num [wordSize]) (by norm_num [wordSize]) (by decide)

/-- `enum coverage_mode`. -/
inductive coverage_mode where
  | MODE_PROCESS
  | MODE_ASID
deriving DecidableEq, Repr

/-- The fields of the OSI thread object used by the plugin. -/
structure OsiThread where
  pid : Nat
  tid : Nat
deriving DecidableEq, Repr

/-- The external inputs consumed by one invocation of
`before_block_exec_process`: the block descriptor (`tb->pc`, `tb->size`) and
the results of the collaborator calls made during the event
(`get_current_thread`, `panda_in_kernel`, `get_current_process`). -/
structure ProcEnv where
  pc : Nat
  size : Nat
  thread : Option OsiThread
  in_kernel : Bool
  proc_name : Option String
deriving DecidableEq, Repr

/-- One data row of process-mode output, kept structured (the fprintf
fields, in order). -/
structure ProcRecord where
  process_name : String
  pid : Nat
  tid : Nat
  in_kernel : Bool
  pc : Nat
  size : Nat
deriving DecidableEq, Repr

/-- The mutable state touched by `before_block_exec_process`: the static
`seen` set and the data rows written to `coveragelog` so far. -/
structure ProcState where
  seen : List RecordID
  log : List ProcRecord
deriving DecidableEq, Repr

/-- `before_block_exec_process`.  Returns `none` when the C code
dereferences a null pointer (`thread->tid` with `get_current_thread`
returning NULL): undefined behaviour.  Otherwise returns the updated state
and the `int` return value (always 0). -/
def before_block_exec_process (st : ProcState) (ev : ProcEnv) :
    Option (ProcState × Int) :=
  let id : RecordID :=
    { pc := ev.pc,
      pid_or_asid := match ev.thread with
        | some thread => thread.pid
        | none => 0 }
  match ev.thread with
  | none => none
  | some thread =>
    let tid := thread.tid
    if st.seen.any fun x => eqRecordID x id then
      some (st, 0)
    else
      let seen' := id :: st.seen
      let process_name : String :=
        if !ev.in_kernel then
          match ev.proc_name with
          | some name => name
          | none => "(unknown)"
        else "(kernel)"
      some ({ seen := seen',
              log := st.log ++
                [{ process_name := process_name, pid := id.pid_or_asid,
                   tid := tid, in_kernel := ev.in_kernel,
                   pc := ev.pc, size := ev.size }] }, 0)

/-- The external inputs of one invocation of `before_block_exec_asid`. -/
structure AsidEnv where
  pc : Nat
  size : Nat
  asid : Nat
  in_kernel : Bool
deriving DecidableEq, Repr

/-- One data row of asid-mode output. -/
structure AsidRecord where
  asid : Nat
  in_kernel : Bool
  pc : Nat
  size : Nat
deriving DecidableEq, Repr

/-- The mutable state touched by `before_block_exec_asid`. -/
structure AsidState where
  seen : List RecordID
  log : List AsidRecord
deriving DecidableEq, Repr

/-- `before_block_exec_asid`: total, never consults OS introspection. -/
def before_block_exec_asid (st : AsidState) (ev : AsidEnv) : AsidState × Int :=
  let id : RecordID := { pc := ev.pc, pid_or_asid := ev.asid }
  if st.seen.any fun x => eqRecordID x id then (st, 0)
  else
    ({ seen := id :: st.seen,
       log := st.log ++
         [{ asid := id.pid_or_asid, in_kernel := ev.in_kernel,
            pc := ev.pc, size := ev.size }] }, 0)

/-- Run the process-mode handler over a list of block events. -/
def runProcess (st : ProcState) : List ProcEnv → Option ProcState
  | [] => some st
  | ev :: rest =>
    match before_block_exec_process st ev with
    | none => none
    | some (st', _) => runProcess st' rest

/-- Run the asid-mode handler over a list of block events. -/
def runAsid (st : AsidState) : List AsidEnv → AsidState
  | [] => st
  | ev :: rest => runAsid (before_block_exec_asid st ev).1 rest

/-- The key the process-mode handler builds for an event. -/
def procKey (ev : ProcEnv) : RecordID :=
  { pc := ev.pc,
    pid_or_asid := match ev.thread with
      | some thread => thread.pid
      | none => 0 }

/-- The data row the process-mode handler emits for a first-seen event. -/
def procRecordOf (ev : ProcEnv) : ProcRecord :=
  { process_name :=
      if !ev.in_kernel then
        match ev.proc_name with
        | some name => name
        | none => "(unknown)"
      else "(kernel)",
    pid := (procKey ev).pid_or_asid,
    tid := match ev.thread with
      | some thread => thread.tid
      | none => 0,
    in_kernel := ev.in_kernel, pc := ev.pc, size := ev.size }

/-- The key the asid-mode handler builds for an event. -/
def asidKey (ev : AsidEnv) : RecordID := { pc := ev.pc, pid_or_asid := ev.asid }

/-- The data row the asid-mode handler emits for a first-seen event. -/
def asidRecordOf (ev : AsidEnv) : AsidRecord :=
  { asid := ev.asid, in_kernel := ev.in_kernel, pc := ev.pc, size := ev.size }

/-- The key under which a process-mode row was deduplicated. -/
def procRecKey (r : ProcRecord) : RecordID := { pid_or_asid := r.pid, pc := r.pc }

/-- The key under which an asid-mode row was deduplicated. -/
def asidRecKey (r : AsidRecord) : RecordID := { pid_or_asid := r.asid, pc := r.pc }

/-- stdio `BUFSIZ` (glibc value). -/
def BUFSIZ : Nat := 8192

/-- Buffering policy in effect on the output stream. -/
inductive BufPolicy where
  | unbuffered
  | fullyBuffered (size : Nat)
deriving DecidableEq, Repr

/-- The startup configuration and the behaviour of the external calls made
by `init_plugin`: the raw option values (`none` = option absent), whether an
OS family is configured (`panda_os_familyno != OS_UNKNOWN`), whether `fopen`
succeeds, and whether `setvbuf` succeeds when called on a valid stream. -/
structure InitConfig where
  mode_opt : Option String
  buffer_opt : Option Nat
  os_known : Bool
  fopen_ok : Bool
  setvbuf_ok : Bool
deriving DecidableEq, Repr

/-- What `init_plugin` did: its return value, the final value of the global
mode flag, which callback (if any) was registered, whether the output file
was opened, the header lines written, the buffering policy in effect on the
opened stream (`none` if not opened or not applied), and whether the
"switching to asid mode" warning was emitted. -/
structure InitResult where
  ok : Bool
  mode : coverage_mode
  registered : Option coverage_mode
  file_opened : Bool
  header_writes : List String
  buffering : Option BufPolicy
  warned : Bool
deriving DecidableEq, Repr

/-- The tail of `init_plugin` on an opened stream: write the two header
lines, select and register the `before_block_exec` callback, return true. -/
def initFinish (mode : coverage_mode) (pol : BufPolicy) (warned : Bool) :
    InitResult :=
  { ok := true, mode := mode, registered := some mode, file_opened := true,
    header_writes :=
      match mode with
      | .MODE_PROCESS =>
        ["process\n",
         "process name,process id,thread id,in kernel,block address,block size\n"]
      | .MODE_ASID =>
        ["asid\n", "asid,in kernel,block address,block size\n"],
    buffering := some pol, warned := warned }

/-- The rest of `init_plugin` once the mode argument has parsed to `mode0`:
the process-to-asid fallback, `fopen`, the `setvbuf` block, the header
writes and the callback registration.  The result `none` models undefined
behaviour: the source never checks the result of `fopen`, so a failed open
flows into `setvbuf` or `fprintf` on a null stream. -/
def init_plugin_rest (cfg : InitConfig) (mode0 : coverage_mode) :
    Option InitResult :=
  let buffer_size : Nat := cfg.buffer_opt.getD BUFSIZ
  let mw : coverage_mode × Bool :=
    if mode0 = coverage_mode.MODE_PROCESS then
      if cfg.os_known then (coverage_mode.MODE_PROCESS, false)
      else (coverage_mode.MODE_ASID, true)
    else (mode0, false)
  let mode1 : coverage_mode := mw.1
  let warned : Bool := mw.2
  if buffer_size ≠ BUFSIZ then
    if cfg.fopen_ok then
      if cfg.setvbuf_ok then
        let pol : BufPolicy :=
          if buffer_size = 0 then .unbuffered else .fullyBuffered buffer_size
        some (initFinish mode1 pol warned)
      else
        some { ok := false, mode := mode1, registered := none,
               file_opened := true, header_writes := [], buffering := none,
               warned := warned }
    else none
  else
    if cfg.fopen_ok then
      some (initFinish mode1 (.fullyBuffered BUFSIZ) warned)
    else none

/-- `init_plugin`: resolve the mode string (an unrecognized one returns
false before the file is even opened), then run the rest. -/
def init_plugin (cfg : InitConfig) : Option InitResult :=
  let mode_arg : String :=
    cfg.mode_opt.getD (if cfg.os_known then "process" else "asid")
  if mode_arg = "asid" then
    init_plugin_rest cfg coverage_mode.MODE_ASID
  else if mode_arg = "process" then
    init_plugin_rest cfg coverage_mode.MODE_PROCESS
  else
    some { ok := false, mode := .MODE_ASID, registered := none,
           file_opened := false, header_writes := [], buffering := none,
           warned := false }

/-- The subsequence of events that a dispatcher started with seen-set `seen`
emits: an event is kept exactly when its key is not yet seen at that point
(the check-then-insert discipline shared by both handlers). -/
def dedupBy {α : Type} (key : α → RecordID) (seen : List RecordID) :
    List α → List α
  | [] => []
  | ev :: rest =>
    if key ev ∈ seen then dedupBy key seen rest
    else ev :: dedupBy key (key ev :: seen) rest

/-- The seen-set after a run: the keys of the emitted events (newest first)
on top of the initial set. -/
def seenAfter {α : Type} (key : α → RecordID) (seen : List RecordID)
    (evs : List α) : List RecordID :=
  ((dedupBy key seen evs).map key).reverse ++ seen

theorem any_eqRecordID_false (l : List RecordID) (id : RecordID) (h : id ∉ l) :
    (l.any fun x => eqRecordID x id) = false :=
  Bool.eq_false_iff.mpr fun hc => h ((any_eqRecordID l id).mp hc)

/-- One step of the asid-mode handler, phrased through the key. -/
theorem before_block_exec_asid_eq (st : AsidState) (ev : AsidEnv) :
    before_block_exec_asid st ev =
      ((if asidKey ev ∈ st.seen then st
        else { seen := asidKey ev :: st.seen,
               log := st.log ++ [asidRecordOf ev] }), 0) := by
  by_cases hm : asidKey ev ∈ st.seen
  · have h1 : (st.seen.any fun x => eqRecordID x (asidKey ev)) = true :=
      (any_eqRecordID _ _).mpr hm
    have hm' : ({ pid_or_asid := ev.asid, pc := ev.pc } : RecordID) ∈ st.seen := hm
    simp only [asidKey] at h1
    simp [before_block_exec_asid, h1, hm', hm]
  · have h1 : (st.seen.any fun x => eqRecordID x (asidKey ev)) = false :=
      any_eqRecordID_false _ _ hm
    have hm' : ({ pid_or_asid := ev.asid, pc := ev.pc } : RecordID) ∉ st.seen := hm
    simp only [asidKey] at h1
    simp [before_block_exec_asid, h1, hm', hm, asidKey, asidRecordOf]

/-- One step of the process-mode handler on a resolvable thread, phrased
through the key. -/
theorem before_block_exec_process_eq (st : ProcState) (ev : ProcEnv)
    (t : OsiThread) (ht : ev.thread = some t) :
    before_block_exec_process st ev =
      some ((if procKey ev ∈ st.seen then st
             else { seen := procKey ev :: st.seen,
                    log := st.log ++ [procRecordOf ev] }), 0) := by
  by_cases hm : procKey ev ∈ st.seen
  · have h1 : (st.seen.any fun x => eqRecordID x (procKey ev)) = true :=
      (any_eqRecordID _ _).mpr hm
    have hm' : ({ pid_or_asid := t.pid, pc := ev.pc } : RecordID) ∈ st.seen := by
      simpa [procKey, ht] using hm
    simp only [procKey, ht] at h1
    simp [before_block_exec_process, ht, h1, procKey, hm', hm]
  · have h1 : (st.seen.any fun x => eqRecordID x (procKey ev)) = false :=
      any_eqRecordID_false _ _ hm
    have hm' : ({ pid_or_asid := t.pid, pc := ev.pc } : RecordID) ∉ st.seen := by
      simpa [procKey, ht] using hm
    simp only [procKey, ht] at h1
    simp [before_block_exec_process, ht, h1, procKey, hm', hm, procRecordOf]

theorem runProcess_cons (st st' : ProcState) (ev : ProcEnv)
    (rest : List ProcEnv) (h : before_block_exec_process st ev = some (st', 0)) :
    runProcess st (ev :: rest) = runProcess st' rest := by
  simp [runProcess, h]

/-- The asid-mode run, computed: it appends one row per first-seen key. -/
theorem runAsid_eq (evs : List AsidEnv) : ∀ st : AsidState,
    runAsid st evs =
      { seen := seenAfter asidKey st.seen evs,
        log := st.log ++ (dedupBy asidKey st.seen evs).map asidRecordOf } := by
  induction evs with
  | nil =>
    intro st
    simp [runAsid, seenAfter, dedupBy]
  | cons ev rest ih =>
    intro st
    rw [runAsid, before_block_exec_asid_eq]
    by_cases hm : asidKey ev ∈ st.seen
    · rw [if_pos hm]
      rw [ih]
      simp [seenAfter, dedupBy, hm]
    · rw [if_neg hm]
      rw [ih]
      simp [seenAfter, dedupBy, hm, List.reverse_cons, List.append_assoc]

/-- The process-mode run, computed: on a stream of events whose threads all
resolve, it never faults and appends one row per first-seen key. -/
theorem runProcess_eq (evs : List ProcEnv) : ∀ st : ProcState,
    (∀ ev ∈ evs, ev.thread.isSome) →
    runProcess st evs =
      some { seen := seenAfter procKey st.seen evs,
             log := st.log ++ (dedupBy procKey st.seen evs).map procRecordOf } := by
  induction evs with
  | nil =>
    intro st _
    simp [runProcess, seenAfter, dedupBy]
  | cons ev rest ih =>
    intro st h
    have hev : ev.thread.isSome := h ev (List.mem_cons_self _ _)
    obtain ⟨t, ht⟩ := Option.isSome_iff_exists.mp hev
    have hrest : ∀ e ∈ rest, e.thread.isSome := fun e he =>
      h e (List.mem_cons_of_mem _ he)
    rw [runProcess_cons st _ ev rest (before_block_exec_process_eq st ev t ht)]
    by_cases hm : procKey ev ∈ st.seen
    · rw [if_pos hm]
      rw [ih st hrest]
      simp [seenAfter, dedupBy, hm]
    · rw [if_neg hm]
      rw [ih _ hrest]
      simp [seenAfter, dedupBy, hm, List.reverse_cons, List.append_assoc]

/-- Among the events a run emits, a given key appears exactly at its first
occurrence in the input (and not at all if it was already seen). -/
theorem filter_dedupBy {α : Type} (key : α → RecordID) (k : RecordID) :
    ∀ (evs : List α) (seen : List RecordID),
      (dedupBy key seen evs).filter (fun ev => key ev == k) =
        if k ∈ seen then [] else (evs.find? fun ev => key ev == k).toList := by
  intro evs
  induction evs with
  | nil =>
    intro seen
    simp [dedupBy]
  | cons ev rest ih =>
    intro seen
    by_cases hk : key ev = k
    · by_cases hm : key ev ∈ seen
      · rw [dedupBy, if_pos hm, ih seen, if_pos (hk ▸ hm), if_pos (hk ▸ hm)]
      · have hpe : (key ev == k) = true := by simp [hk]
        rw [dedupBy, if_neg hm, List.filter_cons, hpe, if_pos rfl]
        rw [ih (key ev :: seen)]
        rw [if_pos (by simp [hk] : k ∈ key ev :: seen)]
        rw [if_neg (hk ▸ hm), List.find?_cons_of_pos rest hpe]
        rfl
    · have hpe : (key ev == k) = false := by simp [hk]
      have hfind : ((ev :: rest).find? fun ev => key ev == k) =
          rest.find? fun ev => key ev == k :=
        List.find?_cons_of_neg rest (by simp [hpe])
      by_cases hm : key ev ∈ seen
      · rw [dedupBy, if_pos hm, ih seen, hfind]
      · rw [dedupBy, if_neg hm, List.filter_cons, hpe]
        simp only [Bool.false_eq_true, if_false]
        rw [ih (key ev :: seen), hfind]
        have hmem : (k ∈ key ev :: seen) ↔ k ∈ seen := by
          constructor
          · intro h
            rcases List.mem_cons.mp h with h | h
            · exact absurd h.symm hk
            · exact h
          · intro h
            exact List.mem_cons_of_mem _ h
        by_cases hks : k ∈ seen
        · rw [if_pos (hmem.mpr hks), if_pos hks]
        · rw [if_neg (fun h => hks (hmem.mp h)), if_neg hks]

/-- The data rows of an asid-mode run that carry a given key: exactly the
row of the key's first occurrence in the input (empty if it never occurs). -/
theorem runAsid_filter (evs : List AsidEnv) (k : RecordID) :
    ((runAsid ⟨[], []⟩ evs).log.filter fun r => asidRecKey r == k) =
      ((evs.find? fun ev => asidKey ev == k).map asidRecordOf).toList := by
  rw [runAsid_eq]
  dsimp only
  rw [List.nil_append, List.filter_map,
    show ((fun r => asidRecKey r == k) ∘ asidRecordOf) =
      (fun ev => asidKey ev == k) from rfl,
    filter_dedupBy]
  rw [if_neg (List.not_mem_nil k)]
  cases hf : evs.find? fun ev => asidKey ev == k <;> simp

/-- Process-mode analogue of `runAsid_filter`, for the state produced by a
non-faulting run. -/
theorem runProcess_filter (evs : List ProcEnv) (k : RecordID) (stP : ProcState)
    (h : ∀ ev ∈ evs, ev.thread.isSome)
    (hrun : runProcess ⟨[], []⟩ evs = some stP) :
    (stP.log.filter fun r => procRecKey r == k) =
      ((evs.find? fun ev => procKey ev == k).map procRecordOf).toList := by
  rw [runProcess_eq evs ⟨[], []⟩ h] at hrun
  cases Option.some.inj hrun
  dsimp only
  rw [List.nil_append, List.filter_map,
    show ((fun r => procRecKey r == k) ∘ procRecordOf) =
      (fun ev => procKey ev == k) from rfl,
    filter_dedupBy]
  rw [if_neg (List.not_mem_nil k)]
  cases hf : evs.find? fun ev => procKey ev == k <;> simp

theorem find?_isSome_of_key_mem {α : Type} (key : α → RecordID) (evs : List α)
    (k : RecordID) (hk : ∃ ev ∈ evs, key ev = k) :
    (evs.find? fun ev => key ev == k).isSome := by
  rw [List.find?_isSome]
  obtain ⟨ev, hev, hkey⟩ := hk
  exact ⟨ev, hev, by simp [hkey]⟩

/-- Claim C1: deduplication is idempotent.  For any event stream containing
a given (context id, program counter) key at least once — in any
interleaving with other keys — exactly one data row carrying that key is
emitted, and it is the row of the key's first occurrence.  This holds in
process mode (on streams where every thread resolves; see C2 for the
null-thread fault) and in asid mode. -/
theorem dedup_idempotent_first_occurrence
    (evsP : List ProcEnv) (evsA : List AsidEnv) (kP kA : RecordID)
    (hthr : ∀ ev ∈ evsP, ev.thread.isSome)
    (hkP : ∃ ev ∈ evsP, procKey ev = kP)
    (hkA : ∃ ev ∈ evsA, asidKey ev = kA) :
    (∃ stP, runProcess ⟨[], []⟩ evsP = some stP ∧
      (stP.log.filter fun r => procRecKey r == kP).length = 1 ∧
      (stP.log.filter fun r => procRecKey r == kP) =
        ((evsP.find? fun ev => procKey ev == kP).map procRecordOf).toList) ∧
    (((runAsid ⟨[], []⟩ evsA).log.filter fun r => asidRecKey r == kA).length = 1 ∧
     ((runAsid ⟨[], []⟩ evsA).log.filter fun r => asidRecKey r == kA) =
       ((evsA.find? fun ev => asidKey ev == kA).map asidRecordOf).toList) := by
  have hrun := runProcess_eq evsP ⟨[], []⟩ hthr
  have hfilP := runProcess_filter evsP kP _ hthr hrun
  have hfilA := runAsid_filter evsA kA
  obtain ⟨eP, heP⟩ := Option.isSome_iff_exists.mp
    (find?_isSome_of_key_mem procKey evsP kP hkP)
  obtain ⟨eA, heA⟩ := Option.isSome_iff_exists.mp
    (find?_isSome_of_key_mem asidKey evsA kA hkA)
  refine ⟨⟨_, hrun, ?_, hfilP⟩, ?_, hfilA⟩
  · rw [hfilP, heP]
    rfl
  · rw [hfilA, heA]
    rfl

/-- Witness for C1: process-mode events (pid 10, pc 4096) twice then
(pid 10, pc 8192); asid-mode events (asid 170, pc 1280) twice then
(asid 187, pc 1280). -/
theorem dedup_idempotent_first_occurrence_witness :
    (∃ stP, runProcess ⟨[], []⟩
        [⟨4096, 4, some ⟨10, 11⟩, false, some "app"⟩,
         ⟨4096, 4, some ⟨10, 11⟩, false, some "app"⟩,
         ⟨8192, 8, some ⟨10, 11⟩, false, some "app"⟩] = some stP ∧
      (stP.log.filter fun r => procRecKey r == ⟨10, 4096⟩).length = 1 ∧
      (stP.log.filter fun r => procRecKey r == ⟨10, 4096⟩) =
        (([⟨4096, 4, some ⟨10, 11⟩, false, some "app"⟩,
           ⟨4096, 4, some ⟨10, 11⟩, false, some "app"⟩,
           ⟨8192, 8, some ⟨10, 11⟩, false, some "app"⟩].find?
             fun ev => procKey ev == ⟨10, 4096⟩).map procRecordOf).toList) ∧
    (((runAsid ⟨[], []⟩
        [⟨1280, 16, 170, false⟩, ⟨1280, 16, 170, false⟩,
         ⟨1280, 16, 187, false⟩]).log.filter
           fun r => asidRecKey r == ⟨170, 1280⟩).length = 1 ∧
     ((runAsid ⟨[], []⟩
        [⟨1280, 16, 170, false⟩, ⟨1280, 16, 170, false⟩,
         ⟨1280, 16, 187, false⟩]).log.filter
           fun r => asidRecKey r == ⟨170, 1280⟩) =
       (([⟨1280, 16, 170, false⟩, ⟨1280, 16, 170, false⟩,
          ⟨1280, 16, 187, false⟩].find?
            fun ev => asidKey ev == ⟨170, 1280⟩).map asidRecordOf).toList) :=
  dedup_idempotent_first_occurrence
    [⟨4096, 4, some ⟨10, 11⟩, false, some "app"⟩,
     ⟨4096, 4, some ⟨10, 11⟩, false, some "app"⟩,
     ⟨8192, 8, some ⟨10, 11⟩, false, some "app"⟩]
    [⟨1280, 16, 170, false⟩, ⟨1280, 16, 170, false⟩, ⟨1280, 16, 187, false⟩]
    ⟨10, 4096⟩ ⟨170, 1280⟩ (by decide) (by decide) (by decide)

/-- Claim C10: deduplication is exact, not probabilistic.  Membership is
decided by field-wise equality, so two distinct keys whose hashes collide
are each still emitted exactly once — a hash collision never suppresses a
first-seen row and never duplicates one.  Stated for both modes. -/
theorem dedup_exact_under_hash_collision
    (k1 k2 : RecordID) (_hne : k1 ≠ k2)
    (_hcol : hashRecordID k1 = hashRecordID k2)
    (evsP : List ProcEnv) (evsA : List AsidEnv)
    (hthr : ∀ ev ∈ evsP, ev.thread.isSome)
    (h1P : ∃ ev ∈ evsP, procKey ev = k1) (h2P : ∃ ev ∈ evsP, procKey ev = k2)
    (h1A : ∃ ev ∈ evsA, asidKey ev = k1) (h2A : ∃ ev ∈ evsA, asidKey ev = k2) :
    (∃ stP, runProcess ⟨[], []⟩ evsP = some stP ∧
      (stP.log.filter fun r => procRecKey r == k1).length = 1 ∧
      (stP.log.filter fun r => procRecKey r == k2).length = 1) ∧
    (((runAsid ⟨[], []⟩ evsA).log.filter fun r => asidRecKey r == k1).length = 1 ∧
     ((runAsid ⟨[], []⟩ evsA).log.filter fun r => asidRecKey r == k2).length = 1) := by
  have hrun := runProcess_eq evsP ⟨[], []⟩ hthr
  obtain ⟨e1P, he1P⟩ := Option.isSome_iff_exists.mp
    (find?_isSome_of_key_mem procKey evsP k1 h1P)
  obtain ⟨e2P, he2P⟩ := Option.isSome_iff_exists.mp
    (find?_isSome_of_key_mem procKey evsP k2 h2P)
  obtain ⟨e1A, he1A⟩ := Option.isSome_iff_exists.mp
    (find?_isSome_of_key_mem asidKey evsA k1 h1A)
  obtain ⟨e2A, he2A⟩ := Option.isSome_iff_exists.mp
    (find?_isSome_of_key_mem asidKey evsA k2 h2A)
  refine ⟨⟨_, hrun, ?_, ?_⟩, ?_, ?_⟩
  · rw [runProcess_filter evsP k1 _ hthr hrun, he1P]
    rfl
  · rw [runProcess_filter evsP k2 _ hthr hrun, he2P]
    rfl
  · rw [runAsid_filter evsA k1, he1A]
    rfl
  · rw [runAsid_filter evsA k2, he2A]
    rfl

/-- Witness for C10 at the colliding keys (0, 1) and (2, 0):
hash (0, 1) = 0 xor (1 << 1) = 2 and hash (2, 0) = 2 xor 0 = 2. -/
theorem dedup_exact_under_hash_collision_witness :
    (∃ stP, runProcess ⟨[], []⟩
        [⟨1, 4, some ⟨0, 5⟩, false, some "a"⟩,
         ⟨0, 4, some ⟨2, 5⟩, false, some "b"⟩,
         ⟨1, 4, some ⟨0, 5⟩, false, some "a"⟩] = some stP ∧
      (stP.log.filter fun r => procRecKey r == ⟨0, 1⟩).length = 1 ∧
      (stP.log.filter fun r => procRecKey r == ⟨2, 0⟩).length = 1) ∧
    (((runAsid ⟨[], []⟩
        [⟨1, 4, 0, false⟩, ⟨0, 4, 2, false⟩, ⟨1, 4, 0, false⟩]).log.filter
          fun r => asidRecKey r == ⟨0, 1⟩).length = 1 ∧
     ((runAsid ⟨[], []⟩
        [⟨1, 4, 0, false⟩, ⟨0, 4, 2, false⟩, ⟨1, 4, 0, false⟩]).log.filter
          fun r => asidRecKey r == ⟨2, 0⟩).length = 1) :=
  dedup_exact_under_hash_collision ⟨0, 1⟩ ⟨2, 0⟩ (by decide) (by decide)
    [⟨1, 4, some ⟨0, 5⟩, false, some "a"⟩,
     ⟨0, 4, some ⟨2, 5⟩, false, some "b"⟩,
     ⟨1, 4, some ⟨0, 5⟩, false, some "a"⟩]
    [⟨1, 4, 0, false⟩, ⟨0, 4, 2, false⟩, ⟨1, 4, 0, false⟩]
    (by decide) (by decide) (by decide) (by decide) (by decide)

/-- Claim C2 is refuted by the code: when `get_current_thread` resolves no
thread, `before_block_exec_process` guards the pid assignment
(`thread ? thread->pid : 0`) but then reads `thread->tid` without a guard,
dereferencing the null pointer — the event does not complete normally. -/
theorem process_null_thread_faults :
    before_block_exec_process ⟨[], []⟩
      { pc := 4096, size := 4, thread := none, in_kernel := false,
        proc_name := none } = none := rfl

/-- Claim C8: in process mode, a first-seen key with a resolvable thread
completes without error and records as process name: "(kernel)" when in
kernel code, else the resolved process name, else "(unknown)" when the
process lookup returns nothing. -/
theorem process_name_resolved (st : ProcState) (ev : ProcEnv) (t : OsiThread)
    (ht : ev.thread = some t) (hnew : procKey ev ∉ st.seen) :
    before_block_exec_process st ev =
      some ({ seen := procKey ev :: st.seen,
              log := st.log ++ [procRecordOf ev] }, 0) ∧
    (procRecordOf ev).process_name =
      (if ev.in_kernel then "(kernel)"
       else match ev.proc_name with
            | some n => n
            | none => "(unknown)") := by
  constructor
  · rw [before_block_exec_process_eq st ev t ht, if_neg hnew]
  · cases hk : ev.in_kernel <;> simp [procRecordOf, hk]

/-- Witness for C8: user mode, process lookup returns nothing, so the row
records "(unknown)" and the handler returns normally. -/
theorem process_name_resolved_witness :
    before_block_exec_process ⟨[], []⟩ ⟨4096, 4, some ⟨7, 8⟩, false, none⟩ =
      some (⟨[⟨7, 4096⟩], [⟨"(unknown)", 7, 8, false, 4096, 4⟩]⟩, 0) ∧
    (procRecordOf ⟨4096, 4, some ⟨7, 8⟩, false, none⟩).process_name =
      "(unknown)" :=
  process_name_resolved ⟨[], []⟩ ⟨4096, 4, some ⟨7, 8⟩, false, none⟩ ⟨7, 8⟩
    rfl (by decide)

/-- Claim C3 is refuted by the code: `init_plugin` never checks the result
of `fopen`.  At a configuration where the output file cannot be opened it
does not return false and skip registration; it proceeds into `fprintf` on
the null stream (undefined behaviour, modelled `none`). -/
theorem init_unchecked_fopen :
    init_plugin { mode_opt := some "asid", buffer_opt := none,
                  os_known := false, fopen_ok := false, setvbuf_ok := true } =
      none := rfl

/-- Claim C4: an unrecognized mode string makes `init_plugin` return false
before the output file is even opened: no callback registered, no header
written, no file mutation at all. -/
theorem unknown_mode_rejected (cfg : InitConfig)
    (h1 : cfg.mode_opt.getD (if cfg.os_known then "process" else "asid") ≠ "asid")
    (h2 : cfg.mode_opt.getD (if cfg.os_known then "process" else "asid") ≠ "process") :
    init_plugin cfg =
      some { ok := false, mode := coverage_mode.MODE_ASID, registered := none,
             file_opened := false, header_writes := [], buffering := none,
             warned := false } := by
  simp [init_plugin, h1, h2]

/-- Witness for C4 at mode "bogus". -/
theorem unknown_mode_rejected_witness :
    init_plugin ⟨some "bogus", none, true, true, true⟩ =
      some { ok := false, mode := coverage_mode.MODE_ASID, registered := none,
             file_opened := false, header_writes := [], buffering := none,
             warned := false } :=
  unknown_mode_rejected ⟨some "bogus", none, true, true, true⟩
    (by decide) (by decide)

/-- Claim C5: requesting process mode with no OS family configured is not
fatal: the mode is forced to asid with a warning, the asid callback is
registered and the first header line is "asid". -/
theorem process_fallback_to_asid (cfg : InitConfig)
    (hos : cfg.os_known = false) (hmode : cfg.mode_opt = some "process")
    (hopen : cfg.fopen_ok = true)
    (hbuf : cfg.buffer_opt.getD BUFSIZ = BUFSIZ ∨ cfg.setvbuf_ok = true) :
    ∃ r, init_plugin cfg = some r ∧ r.ok = true ∧
      r.mode = coverage_mode.MODE_ASID ∧
      r.registered = some coverage_mode.MODE_ASID ∧ r.warned = true ∧
      r.header_writes.head? = some "asid\n" := by
  have hna : ¬ (("process" : String) = "asid") := by decide
  have hstep : init_plugin cfg = init_plugin_rest cfg coverage_mode.MODE_PROCESS := by
    simp [init_plugin, hmode, hna]
  rw [hstep]
  simp only [init_plugin_rest, hos, hopen]
  by_cases hb : cfg.buffer_opt.getD BUFSIZ = BUFSIZ
  · rw [if_neg fun hcond => hcond hb]
    simp [initFinish]
  · rcases hbuf with hb' | hsv
    · exact absurd hb' hb
    · rw [if_pos hb]
      simp [hsv, initFinish]

/-- Witness for C5: mode "process", default buffer size, no OS family. -/
theorem process_fallback_to_asid_witness :
    ∃ r, init_plugin ⟨some "process", none, false, true, true⟩ = some r ∧
      r.ok = true ∧ r.mode = coverage_mode.MODE_ASID ∧
      r.registered = some coverage_mode.MODE_ASID ∧ r.warned = true ∧
      r.header_writes.head? = some "asid\n" :=
  process_fallback_to_asid ⟨some "process", none, false, true, true⟩
    rfl rfl rfl (Or.inl rfl)

theorem init_rest_header (cfg : InitConfig) (m0 : coverage_mode)
    (r : InitResult) (h : init_plugin_rest cfg m0 = some r) (hok : r.ok = true) :
    r.header_writes =
      (match r.mode with
       | coverage_mode.MODE_PROCESS =>
         ["process\n",
          "process name,process id,thread id,in kernel,block address,block size\n"]
       | coverage_mode.MODE_ASID =>
         ["asid\n", "asid,in kernel,block address,block size\n"]) := by
  simp only [init_plugin_rest] at h
  split at h
  · split at h
    · split at h
      · cases Option.some.inj h
        simp [initFinish]
      · cases Option.some.inj h
        simp at hok
    · exact Option.noConfusion h
  · split at h
    · cases Option.some.inj h
      simp [initFinish]
    · exact Option.noConfusion h

/-- Claim C7: every successful startup writes exactly two header lines —
line 1 the active mode name, line 2 the active mode's column schema — and
no other line, before any data row can be produced. -/
theorem init_header_schema (cfg : InitConfig) (r : InitResult)
    (h : init_plugin cfg = some r) (hok : r.ok = true) :
    r.header_writes =
      (match r.mode with
       | coverage_mode.MODE_PROCESS =>
         ["process\n",
          "process name,process id,thread id,in kernel,block address,block size\n"]
       | coverage_mode.MODE_ASID =>
         ["asid\n", "asid,in kernel,block address,block size\n"]) := by
  simp only [init_plugin] at h
  split at h
  · split at h
    · exact init_rest_header cfg _ r h hok
    · split at h
      · exact init_rest_header cfg _ r h hok
      · cases Option.some.inj h
        simp at hok
  · split at h
    · exact init_rest_header cfg _ r h hok
    · split at h
      · exact init_rest_header cfg _ r h hok
      · cases Option.some.inj h
        simp at hok

/-- Witness for C7 at an asid-mode startup. -/
theorem init_header_schema_witness :
    (initFinish coverage_mode.MODE_ASID (BufPolicy.fullyBuffered BUFSIZ)
        false).header_writes =
      (match (initFinish coverage_mode.MODE_ASID
          (BufPolicy.fullyBuffered BUFSIZ) false).mode with
       | coverage_mode.MODE_PROCESS =>
         ["process\n",
          "process name,process id,thread id,in kernel,block address,block size\n"]
       | coverage_mode.MODE_ASID =>
         ["asid\n", "asid,in kernel,block address,block size\n"]) :=
  init_header_schema ⟨some "asid", none, false, true, true⟩
    (initFinish coverage_mode.MODE_ASID (BufPolicy.fullyBuffered BUFSIZ) false)
    rfl rfl

theorem init_rest_buffering (cfg : InitConfig) (m0 : coverage_mode)
    (hopen : cfg.fopen_ok = true) :
    (cfg.buffer_opt = some 0 → cfg.setvbuf_ok = true →
      ∃ r, init_plugin_rest cfg m0 = some r ∧ r.ok = true ∧
        r.buffering = some BufPolicy.unbuffered) ∧
    (∀ n, cfg.buffer_opt = some n → n ≠ 0 → cfg.setvbuf_ok = true →
      ∃ r, init_plugin_rest cfg m0 = some r ∧ r.ok = true ∧
        r.buffering = some (BufPolicy.fullyBuffered n)) ∧
    (cfg.buffer_opt = none →
      ∃ r, init_plugin_rest cfg m0 = some r ∧ r.ok = true ∧
        r.buffering = some (BufPolicy.fullyBuffered BUFSIZ)) ∧
    (cfg.buffer_opt.getD BUFSIZ ≠ BUFSIZ → cfg.setvbuf_ok = false →
      ∃ r, init_plugin_rest cfg m0 = some r ∧ r.ok = false ∧
        r.registered = none) := by
  refine ⟨?_, ?_, ?_, ?_⟩
  · intro hb hsv
    simp only [init_plugin_rest, hb, hsv, hopen]
    rw [if_pos (by simp [BUFSIZ] : ((some 0).getD BUFSIZ : Nat) ≠ BUFSIZ)]
    simp [initFinish]
  · intro n hb hn hsv
    simp only [init_plugin_rest, hb, hsv, hopen]
    by_cases hnb : n = BUFSIZ
    · rw [if_neg (by simp [hnb] : ¬ ((some n).getD BUFSIZ : Nat) ≠ BUFSIZ)]
      subst hnb
      simp [initFinish]
    · rw [if_pos (by simp [hnb] : ((some n).getD BUFSIZ : Nat) ≠ BUFSIZ)]
      simp [initFinish, hn]
  · intro hb
    simp only [init_plugin_rest, hb, hopen]
    rw [if_neg (by simp : ¬ ((none : Option Nat).getD BUFSIZ : Nat) ≠ BUFSIZ)]
    simp [initFinish]
  · intro hne hsv
    simp only [init_plugin_rest, hsv, hopen]
    rw [if_pos hne]
    simp

/-- Claim C9: the buffering policy: `buffer_size` 0 makes the sink
unbuffered; an explicit nonzero `buffer_size` gives a fully-buffered buffer
of that many bytes; an absent `buffer_size` keeps the default fully
buffered policy; a `setvbuf` failure makes `init_plugin` return false with
no callback registered. -/
theorem init_buffering (cfg : InitConfig)
    (hmode : cfg.mode_opt.getD (if cfg.os_known then "process" else "asid") = "asid" ∨
      cfg.mode_opt.getD (if cfg.os_known then "process" else "asid") = "process")
    (hopen : cfg.fopen_ok = true) :
    (cfg.buffer_opt = some 0 → cfg.setvbuf_ok = true →
      ∃ r, init_plugin cfg = some r ∧ r.ok = true ∧
        r.buffering = some BufPolicy.unbuffered) ∧
    (∀ n, cfg.buffer_opt = some n → n ≠ 0 → cfg.setvbuf_ok = true →
      ∃ r, init_plugin cfg = some r ∧ r.ok = true ∧
        r.buffering = some (BufPolicy.fullyBuffered n)) ∧
    (cfg.buffer_opt = none →
      ∃ r, init_plugin cfg = some r ∧ r.ok = true ∧
        r.buffering = some (BufPolicy.fullyBuffered BUFSIZ)) ∧
    (cfg.buffer_opt.getD BUFSIZ ≠ BUFSIZ → cfg.setvbuf_ok = false →
      ∃ r, init_plugin cfg = some r ∧ r.ok = false ∧ r.registered = none) := by
  have hna : ¬ (("process" : String) = "asid") := by decide
  rcases hmode with hm | hm
  · have hstep : init_plugin cfg = init_plugin_rest cfg coverage_mode.MODE_ASID := by
      simp [init_plugin, hm]
    rw [hstep]
    exact init_rest_buffering cfg coverage_mode.MODE_ASID hopen
  · have hstep : init_plugin cfg = init_plugin_rest cfg coverage_mode.MODE_PROCESS := by
      simp [init_plugin, hm, hna]
    rw [hstep]
    exact init_rest_buffering cfg coverage_mode.MODE_PROCESS hopen

/-- Witness for C9 at mode "asid" with an explicit buffer_size of 0
(unbuffered). -/
theorem init_buffering_witness :
    (((⟨some "asid", some 0, false, true, true⟩ : InitConfig).buffer_opt = some 0 →
      (⟨some "asid", some 0, false, true, true⟩ : InitConfig).setvbuf_ok = true →
      ∃ r, init_plugin ⟨some "asid", some 0, false, true, true⟩ = some r ∧
        r.ok = true ∧ r.buffering = some BufPolicy.unbuffered) ∧
    (∀ n, (⟨some "asid", some 0, false, true, true⟩ : InitConfig).buffer_opt = some n →
      n ≠ 0 → (⟨some "asid", some 0, false, true, true⟩ : InitConfig).setvbuf_ok = true →
      ∃ r, init_plugin ⟨some "asid", some 0, false, true, true⟩ = some r ∧
        r.ok = true ∧ r.buffering = some (BufPolicy.fullyBuffered n)) ∧
    ((⟨some "asid", some 0, false, true, true⟩ : InitConfig).buffer_opt = none →
      ∃ r, init_plugin ⟨some "asid", some 0, false, true, true⟩ = some r ∧
        r.ok = true ∧ r.buffering = some (BufPolicy.fullyBuffered BUFSIZ)) ∧
    ((⟨some "asid", some 0, false, true, true⟩ : InitConfig).buffer_opt.getD BUFSIZ ≠ BUFSIZ →
      (⟨some "asid", some 0, false, true, true⟩ : InitConfig).setvbuf_ok = false →
      ∃ r, init_plugin ⟨some "asid", some 0, false, true, true⟩ = some r ∧
        r.ok = false ∧ r.registered = none)) :=
  init_buffering ⟨some "asid", some 0, false, true, true⟩ (Or.inl rfl) rfl
